import Mathlib

/-!
Verification of the monitoring/analytics subsystem of the MCP Code Analyzer
repository, shallowly embedded in Lean 4.

Embedded source files:
- apps/api/infrastructure/monitoring/core.py (the "new"/optimized stack)
- apps/api/monitoring_system.py             (the "old"/legacy stack)
- apps/api/config/monitoring.py             (configuration validation)
- apps/api/infrastructure/monitoring/migration_adapter.py (hybrid adapter)

Modelling conventions:
- Python `datetime` instants are modelled as rational epoch seconds.
- Python floats are modelled as rationals (the claims under study only use
  exact comparisons, sums, divisions and roundings that are float-exact on
  the inputs appearing in the claims).
- Python `deque(maxlen=cap)` is modelled as a list plus `dequePush`.
- Fallible code (a Python call that raises) returns `Option`/`Except`.
-/

/-! ### Verbosity levels (core.py, class LogLevel) -/

/-- Log levels from core.py `class LogLevel(Enum)`: minimal, standard,
detailed, verbose, debug. -/
inductive LogLevel
  | minimal
  | standard
  | detailed
  | verbose
  | debug
  deriving DecidableEq, Repr

/-- The `level_hierarchy` dictionary inside `MonitoringEvent.should_log`
(core.py lines 123-129): minimal=0, standard=1, detailed=2, verbose=3,
debug=4. -/
def level_hierarchy : LogLevel → Nat
  | .minimal => 0
  | .standard => 1
  | .detailed => 2
  | .verbose => 3
  | .debug => 4

/-! ### Event kinds -/

/-- Event kinds of the new stack, core.py `class EventType(Enum)` with
`auto()` numbering. -/
inductive EventType
  | SYSTEM_START
  | SYSTEM_SHUTDOWN
  | HEALTH_CHECK
  | ANALYSIS_START
  | ANALYSIS_COMPLETE
  | ANALYSIS_ERROR
  | FILE_SCAN_START
  | FILE_SCAN_COMPLETE
  | FILE_ANALYSIS_START
  | FILE_ANALYSIS_COMPLETE
  | AI_REQUEST_START
  | AI_REQUEST_COMPLETE
  | AI_REQUEST_ERROR
  | PERFORMANCE_SAMPLE
  | MEMORY_WARNING
  | CPU_WARNING
  deriving DecidableEq, Repr

/-! ### Events and metrics of the new stack (core.py) -/

/-- A JSON-serializable metadata value (values of the `metadata` dict of an
event). Only the shapes the embedded code actually stores are needed. -/
inductive JsonVal
  | str (s : String)
  | num (q : ℚ)
  | boolean (b : Bool)
  deriving DecidableEq, Repr

/-- core.py `@dataclass class MonitoringEvent` (lines 107-119). `timestamp`
is a UTC instant in epoch seconds. -/
structure MonitoringEvent where
  event_id : String
  event_type : EventType
  timestamp : ℚ
  level : LogLevel := .standard
  project_path : Option String := none
  file_path : Option String := none
  duration_ms : Option ℚ := none
  error_message : Option String := none
  metadata : List (String × JsonVal) := []
  session_id : Option String := none
  deriving DecidableEq, Repr

/-- core.py `MonitoringEvent.should_log` (lines 121-130): the event is
logged iff the rank of its own level is at most the rank of the configured
level. -/
def MonitoringEvent.should_log (e : MonitoringEvent) (configured_level : LogLevel) : Bool :=
  decide (level_hierarchy e.level ≤ level_hierarchy configured_level)

/-! ### Bounded deque semantics (Python collections.deque with maxlen) -/

/-- `deque(maxlen := cap).append x`: appends on the right and, if the
length would exceed `cap`, drops entries from the left so that at most
`cap` remain (for `cap = 0` the deque stays empty, as in CPython). -/
def dequePush {α : Type} (cap : Nat) (buf : List α) (x : α) : List α :=
  let b := buf ++ [x]
  b.drop (b.length - cap)

/-! ### Configuration (core.py MonitoringConfig, config/monitoring.py) -/

/-- core.py `@dataclass class MonitoringConfig` (lines 69-82). Integer
fields are Python ints (possibly negative), float thresholds are modelled
as rationals. -/
structure MonitoringConfig where
  log_level : LogLevel := .standard
  max_events_in_memory : Int := 1000
  event_batch_size : Int := 50
  metrics_retention_hours : Int := 24
  performance_sample_interval : ℚ := 30
  auto_cleanup_enabled : Bool := true
  export_format : String := "json"
  log_file_path : Option String := none
  enable_console_output : Bool := true
  memory_warning_threshold : ℚ := 85
  cpu_warning_threshold : ℚ := 80
  deriving DecidableEq, Repr

/-- config/monitoring.py `validate_monitoring_config` (lines 102-121): runs
a sequence of asserts and returns False when any fails (the exception is
caught and turned into the return value False; nothing is raised to the
caller). The side `mkdir` of the log directory is filesystem-only and is
modelled as succeeding. -/
def validate_monitoring_config (c : MonitoringConfig) : Bool :=
  decide (0 < c.max_events_in_memory ∧ 0 < c.event_batch_size ∧
    0 < c.metrics_retention_hours ∧
    (0 ≤ c.memory_warning_threshold ∧ c.memory_warning_threshold ≤ 100) ∧
    (0 ≤ c.cpu_warning_threshold ∧ c.cpu_warning_threshold ≤ 100))

/-! ### Performance metrics (core.py PerformanceMetrics) -/

/-- Python `round(y)` (banker's rounding, ties to even) on an exact
rational. -/
def pyRound (y : ℚ) : ℤ :=
  let f : ℤ := ⌊y⌋
  if y - f < 1/2 then f
  else if 1/2 < y - f then f + 1
  else if 2 ∣ f then f else f + 1

/-- Python `round(x, 2)`: round to two decimal places. -/
def round2 (x : ℚ) : ℚ := (pyRound (x * 100) : ℚ) / 100

/-- core.py `@dataclass class PerformanceMetrics` (lines 84-93);
`timestamp` is a UTC datetime, modelled as epoch seconds. -/
structure PerformanceMetrics where
  timestamp : ℚ
  cpu_percent : ℚ
  memory_percent : ℚ
  memory_used_mb : ℚ
  disk_usage_percent : ℚ
  active_connections : Int
  response_time_ms : Option ℚ := none
  deriving DecidableEq, Repr

/-- The JSON object produced by `PerformanceMetrics.to_dict`: its keys are
exactly ts, cpu, mem, mem_mb, disk, conn, rt. -/
structure MetricDict where
  ts : ℚ
  cpu : ℚ
  mem : ℚ
  mem_mb : ℚ
  disk : ℚ
  conn : Int
  rt : Option ℚ
  deriving DecidableEq, Repr

/-- core.py `PerformanceMetrics.to_dict` (lines 95-105): `ts` is the
numeric epoch (`timestamp.timestamp()`), the float fields are rounded to
2 decimals, and `rt` is None when `response_time_ms` is falsy (None or
0.0). -/
def PerformanceMetrics.to_dict (m : PerformanceMetrics) : MetricDict :=
  { ts := m.timestamp
    cpu := round2 m.cpu_percent
    mem := round2 m.memory_percent
    mem_mb := round2 m.memory_used_mb
    disk := round2 m.disk_usage_percent
    conn := m.active_connections
    rt := match m.response_time_ms with
          | some r => if r = 0 then none else some (round2 r)
          | none => none }

/-- `datetime.fromtimestamp(ts, tz=utc)`: re-parsing a numeric epoch yields
exactly that instant. -/
def datetime_fromtimestamp (ts : ℚ) : ℚ := ts

/-! ### The optimized monitoring system (core.py OptimizedMonitoringSystem) -/

/-- State of core.py `class OptimizedMonitoringSystem`: the two bounded
buffers with their `maxlen`s, the registered exporters (by an opaque sink
identifier) and, for observability of `_flush_events_batch`, the batches
handed to each exporter so far. -/
structure OptimizedMonitoringSystem where
  config : MonitoringConfig
  events_capacity : Nat
  metrics_capacity : Nat
  events_buffer : List MonitoringEvent := []
  metrics_buffer : List PerformanceMetrics := []
  exporters : List Nat := []
  exported : List (Nat × List MonitoringEvent) := []
  deriving DecidableEq, Repr

/-- core.py `OptimizedMonitoringSystem.__init__` (lines 238-259): builds
`deque(maxlen=config.max_events_in_memory)` and
`deque(maxlen=config.max_events_in_memory // 10)`; CPython raises
ValueError for a negative `maxlen` (a non-negative one, including 0, is
accepted), and `n // 10` of a non-negative n is non-negative. A file
exporter (sink 0) is registered iff `log_file_path` is set. No
configuration validation happens here. -/
def OptimizedMonitoringSystem.init (c : MonitoringConfig) :
    Except String OptimizedMonitoringSystem :=
  if c.max_events_in_memory < 0 then Except.error "maxlen must be non-negative"
  else Except.ok
    { config := c
      events_capacity := c.max_events_in_memory.toNat
      metrics_capacity := (Int.fdiv c.max_events_in_memory 10).toNat
      events_buffer := []
      metrics_buffer := []
      exporters := if c.log_file_path.isSome then [0] else []
      exported := [] }

/-- core.py `OptimizedMonitoringSystem._flush_events_batch` (lines
351-365): if the buffer is empty, do nothing; otherwise copy the buffered
events, clear the buffer, and hand the copied list to every exporter in
registration order. -/
def OptimizedMonitoringSystem.flush_events_batch (st : OptimizedMonitoringSystem) :
    OptimizedMonitoringSystem :=
  if st.events_buffer.isEmpty then st
  else { st with
          events_buffer := []
          exported := st.exported ++ st.exporters.map (fun s => (s, st.events_buffer)) }

/-- core.py `OptimizedMonitoringSystem.log_event` (lines 338-349): drop the
event unless it passes `should_log`; otherwise append it to the bounded
events buffer and, once the buffer length reaches `event_batch_size`,
flush the batch. -/
def OptimizedMonitoringSystem.log_event (st : OptimizedMonitoringSystem)
    (event : MonitoringEvent) : OptimizedMonitoringSystem :=
  if !(event.should_log st.config.log_level) then st
  else
    let st1 := { st with
      events_buffer := dequePush st.events_capacity st.events_buffer event }
    if st.config.event_batch_size ≤ (st1.events_buffer.length : Int)
    then st1.flush_events_batch
    else st1

/-- core.py `OptimizedMonitoringSystem.track_operation` (lines 367-415),
as the sequence of events it submits to `log_event` together with the
propagated outcome. Inputs that the source draws from the ambient
environment are parameters: the generated `event_id`, the three
`datetime.now` instants, and the body's outcome (`Except.error msg`
models an exception whose `str` is `msg`). The `**kwargs` pass-through is
modelled by the optional project path, file path and session id. -/
def OptimizedMonitoringSystem.track_operation {α : Type} (event_id : String)
    (operation_type : EventType) (level : LogLevel)
    (project_path file_path session_id : Option String)
    (t_start t_error t_end : ℚ) (body : Except String α) :
    List MonitoringEvent × Except String α :=
  let start_event : MonitoringEvent :=
    { event_id := event_id ++ "_start", event_type := operation_type
      timestamp := t_start, level := level
      project_path := project_path, file_path := file_path, session_id := session_id }
  let error_occurred : Option String :=
    match body with
    | .ok _ => none
    | .error e => some e
  let error_events : List MonitoringEvent :=
    match error_occurred with
    | none => []
    | some e =>
      [{ event_id := event_id ++ "_error", event_type := .ANALYSIS_ERROR
         timestamp := t_error, level := .standard, error_message := some e
         project_path := project_path, file_path := file_path, session_id := session_id }]
  let complete_event : MonitoringEvent :=
    { event_id := event_id ++ "_complete", event_type := .ANALYSIS_COMPLETE
      timestamp := t_end, level := level
      duration_ms := some ((t_end - t_start) * 1000)
      metadata := [("success", JsonVal.boolean error_occurred.isNone)]
      project_path := project_path, file_path := file_path, session_id := session_id }
  (start_event :: error_events ++ [complete_event], body)

/-! ### The legacy stack (monitoring_system.py) -/

/-- Event kinds of the old stack, monitoring_system.py `class
EventType(Enum)` (lines 27-39), named OldEventType as in
migration_adapter.py's import alias. -/
inductive OldEventType
  | ANALYSIS_START
  | ANALYSIS_COMPLETE
  | ANALYSIS_ERROR
  | FILE_SCAN_START
  | FILE_SCAN_COMPLETE
  | FILE_ANALYSIS_START
  | FILE_ANALYSIS_COMPLETE
  | AI_REQUEST_START
  | AI_REQUEST_COMPLETE
  | AI_REQUEST_ERROR
  | SYSTEM_HEALTH_CHECK
  | PERFORMANCE_METRIC
  deriving DecidableEq, Repr

/-- The `.value` strings of the old EventType members. -/
def OldEventType.value : OldEventType → String
  | .ANALYSIS_START => "analysis_start"
  | .ANALYSIS_COMPLETE => "analysis_complete"
  | .ANALYSIS_ERROR => "analysis_error"
  | .FILE_SCAN_START => "file_scan_start"
  | .FILE_SCAN_COMPLETE => "file_scan_complete"
  | .FILE_ANALYSIS_START => "file_analysis_start"
  | .FILE_ANALYSIS_COMPLETE => "file_analysis_complete"
  | .AI_REQUEST_START => "ai_request_start"
  | .AI_REQUEST_COMPLETE => "ai_request_complete"
  | .AI_REQUEST_ERROR => "ai_request_error"
  | .SYSTEM_HEALTH_CHECK => "system_health_check"
  | .PERFORMANCE_METRIC => "performance_metric"

/-- Python substring containment `needle in s` for a non-empty needle. -/
def containsSub (needle s : String) : Bool := (s.splitOn needle).length > 1

/-- The value held by the old PerformanceMetrics `timestamp` attribute: a
datetime (modelled by its epoch seconds) until logging mutates it into
its ISO-8601 string form. -/
inductive TimestampVal
  | dtime (t : ℚ)
  | iso (s : String)
  deriving DecidableEq, Repr

/-- `datetime.isoformat`, modelled as an injective rendering of the
instant (the exact ISO-8601 text does not matter to the claims). -/
def iso_format (t : ℚ) : String := "iso:" ++ toString t

/-- monitoring_system.py `@dataclass class PerformanceMetrics` (lines
41-49), distinct from the new stack's record. -/
structure OldPerformanceMetrics where
  cpu_usage : ℚ
  memory_usage : ℚ
  disk_usage : ℚ
  active_connections : Int
  response_time_ms : ℚ
  timestamp : TimestampVal
  deriving DecidableEq, Repr

/-- monitoring_system.py `@dataclass class AnalysisEvent` (lines 51-64). -/
structure AnalysisEvent where
  event_id : String
  event_type : OldEventType
  timestamp : ℚ
  project_path : Option String := none
  file_path : Option String := none
  duration_ms : Option ℚ := none
  error_message : Option String := none
  error_traceback : Option String := none
  metadata : Option (List (String × JsonVal)) := none
  performance_metrics : Option OldPerformanceMetrics := none
  user_session_id : Option String := none
  deriving DecidableEq, Repr

/-- One per-session aggregate of `session_stats` (monitoring_system.py
lines 147-154). -/
structure SessionStats where
  start_time : ℚ
  events_count : Nat
  errors_count : Nat
  total_files_analyzed : Nat
  total_analysis_time_ms : ℚ
  deriving DecidableEq, Repr

/-- State of monitoring_system.py `class AdvancedAnalyticsLogger`: the
in-memory event list and the per-session statistics dict (modelled as an
association list in insertion order). -/
structure AdvancedAnalyticsLogger where
  events : List AnalysisEvent := []
  session_stats : List (String × SessionStats) := []
  deriving DecidableEq, Repr

/-- Assignment `d[k] = v` on a dict modelled as an association list:
replace the binding if the key exists, else append it. -/
def updateAssoc (k : String) (v : SessionStats) :
    List (String × SessionStats) → List (String × SessionStats)
  | [] => [(k, v)]
  | (k2, v2) :: rest =>
      if k2 = k then (k, v) :: rest else (k2, v2) :: updateAssoc k v rest

/-- monitoring_system.py `log_event` lines 130-131: when the event carries
performance metrics, `timestamp` is reassigned in place to
`timestamp.isoformat()`. On a datetime this yields the ISO string; if
the attribute already holds a string the source raises AttributeError
(str has no isoformat), modelled as `none`. -/
def serialize_event_metrics (e : AnalysisEvent) : Option AnalysisEvent :=
  match e.performance_metrics with
  | none => some e
  | some m =>
    match m.timestamp with
    | .dtime t =>
        let m2 : OldPerformanceMetrics :=
          { m with timestamp := TimestampVal.iso (iso_format t) }
        some { e with performance_metrics := some m2 }
    | .iso _ => none

/-- The session-statistics update of monitoring_system.py `log_event`
(lines 145-164), guarded by `if event.user_session_id:` (line 146) —
Python truthiness, so both None and the empty string carry no session
and leave the statistics untouched. Otherwise: lazily initialize the
aggregate on first sight of a session id, then increment the event
count, increment the error count when the event kind's value contains
"error", and account file-analysis-complete durations. -/
def update_session_stats (stats : List (String × SessionStats))
    (e : AnalysisEvent) : List (String × SessionStats) :=
  match e.user_session_id with
  | none => stats
  | some sid =>
    if sid = "" then stats
    else
    let cur := (stats.lookup sid).getD
      { start_time := e.timestamp, events_count := 0, errors_count := 0,
        total_files_analyzed := 0, total_analysis_time_ms := 0 }
    let cur1 := { cur with events_count := cur.events_count + 1 }
    let cur2 :=
      if containsSub "error" e.event_type.value then
        { cur1 with errors_count := cur1.errors_count + 1 }
      else cur1
    let cur3 :=
      match e.duration_ms with
      | some d =>
        if e.event_type = .FILE_ANALYSIS_COMPLETE ∧ d ≠ 0 then
          { cur2 with total_files_analyzed := cur2.total_files_analyzed + 1,
                      total_analysis_time_ms := cur2.total_analysis_time_ms + d }
        else cur2
      | none => cur2
    updateAssoc sid cur3 stats

/-- monitoring_system.py `AdvancedAnalyticsLogger.log_event` (lines
114-164): appends the event to `self.events`, mutates an attached
metric's timestamp into its ISO string (the stored and the caller-visible
event are the same mutated object, so both reflect the change), then
updates the session statistics. The JSON line written to the log handler
and the console summary printed on ANALYSIS_COMPLETE only read state and
are not modelled. Returns the new state with the caller-visible event,
or `none` when the source raises. -/
def AdvancedAnalyticsLogger.log_event (st : AdvancedAnalyticsLogger)
    (event : AnalysisEvent) : Option (AdvancedAnalyticsLogger × AnalysisEvent) :=
  match serialize_event_metrics event with
  | none => none
  | some e2 =>
    some ({ events := st.events ++ [e2],
            session_stats := update_session_stats st.session_stats e2 }, e2)

/-- monitoring_system.py `get_analytics_summary` (lines 243-250), the
per-session branch guarded by `if session_id and session_id in
self.session_stats:` (line 246) — Python truthiness, so the empty string
(like None) fails the guard and falls through to the global-statistics
branch, modelled as `none` here. Otherwise: the aggregate plus the
number of stored events carrying that session id. -/
def AdvancedAnalyticsLogger.get_analytics_summary (st : AdvancedAnalyticsLogger)
    (session_id : String) : Option (SessionStats × Nat) :=
  if session_id = "" then none
  else
    (st.session_stats.lookup session_id).map (fun s =>
      (s, (st.events.filter (fun e => e.user_session_id == some session_id)).length))

/-! ### Hybrid migration adapter (migration_adapter.py) -/

/-- An event kind handed to the hybrid system: a member of either the old
or the new EventType enumeration (the source is duck-typed here). -/
inductive KindInput
  | old (k : OldEventType)
  | new (k : EventType)
  deriving DecidableEq, Repr

/-- The `mapping` dict of `EventTypeMapper.old_to_new` (migration_adapter.py
lines 55-68), keyed by old-enum members. A member of the new enumeration
is never equal to any old-enum key (Python enum members of different
classes compare unequal), so `dict.get` misses for it. -/
def old_to_new_lookup : KindInput → Option EventType
  | .old .ANALYSIS_START => some .ANALYSIS_START
  | .old .ANALYSIS_COMPLETE => some .ANALYSIS_COMPLETE
  | .old .ANALYSIS_ERROR => some .ANALYSIS_ERROR
  | .old .FILE_SCAN_START => some .FILE_SCAN_START
  | .old .FILE_SCAN_COMPLETE => some .FILE_SCAN_COMPLETE
  | .old .FILE_ANALYSIS_START => some .FILE_ANALYSIS_START
  | .old .FILE_ANALYSIS_COMPLETE => some .FILE_ANALYSIS_COMPLETE
  | .old .AI_REQUEST_START => some .AI_REQUEST_START
  | .old .AI_REQUEST_COMPLETE => some .AI_REQUEST_COMPLETE
  | .old .AI_REQUEST_ERROR => some .AI_REQUEST_ERROR
  | .old .SYSTEM_HEALTH_CHECK => some .HEALTH_CHECK
  | .old .PERFORMANCE_METRIC => some .PERFORMANCE_SAMPLE
  | .new _ => none

/-- `EventTypeMapper.old_to_new` (lines 49-70):
`mapping.get(old_event_type, EventType.ANALYSIS_START)` — a default, not
a drop, when the key has no entry. -/
def EventTypeMapper.old_to_new (k : KindInput) : EventType :=
  (old_to_new_lookup k).getD .ANALYSIS_START

/-- The `reverse_mapping` dict of `EventTypeMapper.new_to_old` (lines
72-93): `reverse_mapping.get(new_event_type)` — None for the four kinds
with no entry (SYSTEM_START, SYSTEM_SHUTDOWN, MEMORY_WARNING,
CPU_WARNING). -/
def EventTypeMapper.new_to_old : EventType → Option OldEventType
  | .ANALYSIS_START => some .ANALYSIS_START
  | .ANALYSIS_COMPLETE => some .ANALYSIS_COMPLETE
  | .ANALYSIS_ERROR => some .ANALYSIS_ERROR
  | .FILE_SCAN_START => some .FILE_SCAN_START
  | .FILE_SCAN_COMPLETE => some .FILE_SCAN_COMPLETE
  | .FILE_ANALYSIS_START => some .FILE_ANALYSIS_START
  | .FILE_ANALYSIS_COMPLETE => some .FILE_ANALYSIS_COMPLETE
  | .AI_REQUEST_START => some .AI_REQUEST_START
  | .AI_REQUEST_COMPLETE => some .AI_REQUEST_COMPLETE
  | .AI_REQUEST_ERROR => some .AI_REQUEST_ERROR
  | .HEALTH_CHECK => some .SYSTEM_HEALTH_CHECK
  | .PERFORMANCE_SAMPLE => some .PERFORMANCE_METRIC
  | .SYSTEM_START => none
  | .SYSTEM_SHUTDOWN => none
  | .MEMORY_WARNING => none
  | .CPU_WARNING => none

/-- `hasattr(event_type, "value")` (migration_adapter.py line 145):
members of BOTH enumerations carry a `.value` attribute (`auto()` numbers
on the new one, strings on the old one), so the check is true for every
kind the hybrid system receives. -/
def has_value_attr : KindInput → Bool := fun _ => true

/-- The event-kind routing of `HybridMonitoringSystem.log_event` (lines
133-197) with `OLD_SYSTEM_AVAILABLE` true and the given stack flags:
which kind, if any, each stack receives. The first component is the kind
logged to the new stack (lines 140-159: translated through `old_to_new`
whenever the hasattr guard fires, which is always), the second the kind
logged to the old stack (lines 173-186: a new-enum kind is translated
through `new_to_old` and the call returns without logging when that
yields None). `none` means the mirrored call to that stack logs nothing;
no exception escapes either way. -/
def HybridMonitoringSystem.log_event_kinds (use_new use_old : Bool)
    (k : KindInput) : Option EventType × Option OldEventType :=
  let newLogged : Option EventType :=
    if use_new then
      some (if has_value_attr k then EventTypeMapper.old_to_new k
            else
              match k with
              | .new t => t
              | .old o => EventTypeMapper.old_to_new (.old o))
    else none
  let oldLogged : Option OldEventType :=
    if use_old then
      match k with
      | .new t => EventTypeMapper.new_to_old t
      | .old o => some o
    else none
  (newLogged, oldLogged)

/-- `HybridMonitoringSystem.comparison_stats` (lines 124-131). -/
structure ComparisonStats where
  events_logged_new : Nat := 0
  events_logged_old : Nat := 0
  errors_new : Nat := 0
  errors_old : Nat := 0
  performance_new : List ℚ := []
  performance_old : List ℚ := []
  deriving DecidableEq, Repr

/-- The counter updates one successful mirrored `log_event` call performs
when comparison mode is on and both stacks are enabled
(migration_adapter.py lines 160-165 and 188-192): each stack's measured
wall-clock duration (seconds) is appended and its event counter is
incremented; no error counter moves because no exception was raised. -/
def record_mirrored_success (s : ComparisonStats) (dNew dOld : ℚ) : ComparisonStats :=
  { s with
    performance_new := s.performance_new ++ [dNew]
    events_logged_new := s.events_logged_new + 1
    performance_old := s.performance_old ++ [dOld]
    events_logged_old := s.events_logged_old + 1 }

/-- Python `sum(l) / len(l) if l else 0`. -/
def listAvg (l : List ℚ) : ℚ := if l.isEmpty then 0 else l.sum / l.length

/-- The report of `_generate_comparison_report` (lines 294-311), with
fields named after its nested dictionary entries. -/
structure ComparisonReport where
  events_new : Nat
  events_old : Nat
  error_rate_new : ℚ
  error_rate_old : ℚ
  avg_ms_new : ℚ
  avg_ms_old : ℚ
  improvement_pct : ℚ
  faster_system : String
  deriving DecidableEq, Repr

/-- migration_adapter.py `HybridMonitoringSystem._generate_comparison_report`
(lines 284-311): per-stack event counts, error rates
errors / max(events, 1) x 100, average per-call latency in ms, and the
faster-system verdict comparing the two average latencies. -/
def HybridMonitoringSystem.generate_comparison_report
    (s : ComparisonStats) : ComparisonReport :=
  let avg_perf_new := listAvg s.performance_new
  let avg_perf_old := listAvg s.performance_old
  { events_new := s.events_logged_new
    events_old := s.events_logged_old
    error_rate_new := ((s.errors_new : ℚ) / ((max s.events_logged_new 1 : Nat) : ℚ)) * 100
    error_rate_old := ((s.errors_old : ℚ) / ((max s.events_logged_old 1 : Nat) : ℚ)) * 100
    avg_ms_new := avg_perf_new * 1000
    avg_ms_old := avg_perf_old * 1000
    improvement_pct := ((avg_perf_old - avg_perf_new) / max avg_perf_old (1 / 1000)) * 100
    faster_system := if avg_perf_new < avg_perf_old then "new" else "old" }

/-! ### Sample data for concrete witnesses -/

/-- A concrete standard-level event. -/
def sampleEventA : MonitoringEvent :=
  { event_id := "a", event_type := EventType.ANALYSIS_START, timestamp := 0 }

/-- A second concrete standard-level event. -/
def sampleEventB : MonitoringEvent :=
  { event_id := "b", event_type := EventType.FILE_SCAN_START, timestamp := 1 }

/-- A concrete legacy metrics record with a datetime timestamp (mirrors
the repository's own test fixture). -/
def sampleOldMetrics : OldPerformanceMetrics :=
  { cpu_usage := 50, memory_usage := 60, disk_usage := 70,
    active_connections := 10, response_time_ms := 100,
    timestamp := TimestampVal.dtime 5 }

/-- A concrete legacy event carrying `sampleOldMetrics`. -/
def sampleOldEvent : AnalysisEvent :=
  { event_id := "evt", event_type := OldEventType.PERFORMANCE_METRIC,
    timestamp := 5, performance_metrics := some sampleOldMetrics }

/-- Concrete legacy event of session "s". -/
def sessionEvent1 : AnalysisEvent :=
  { event_id := "1", event_type := OldEventType.ANALYSIS_START,
    timestamp := 0, user_session_id := some "s" }

/-- Second concrete legacy event of session "s", of an error kind. -/
def sessionEvent2 : AnalysisEvent :=
  { event_id := "2", event_type := OldEventType.ANALYSIS_ERROR,
    timestamp := 1, user_session_id := some "s" }

/-- Concrete legacy event of session "t". -/
def sessionEvent3 : AnalysisEvent :=
  { event_id := "3", event_type := OldEventType.FILE_SCAN_START,
    timestamp := 2, user_session_id := some "t" }

/-! ### Theorems -/

/-- Pushing a whole list into an initially empty bounded deque keeps
exactly the last `cap` elements, in order. -/
theorem dequePush_foldl {α : Type} (cap : Nat) (xs : List α) :
    List.foldl (dequePush cap) [] xs = xs.drop (xs.length - cap) := by
  induction xs using List.reverseRecOn with
  | nil => simp
  | append_singleton ys x ih =>
    rw [List.foldl_append, List.foldl_cons, List.foldl_nil, ih]
    unfold dequePush
    rw [← List.drop_append_of_le_length (Nat.sub_le ys.length cap), List.drop_drop]
    congr 1
    simp only [List.length_drop, List.length_append, List.length_cons, List.length_nil]
    omega

/-- Claim C1: for every event verbosity level L and configured level V,
`should_log` returns true iff the rank of L is at most the rank of V under
minimal=0, standard=1, detailed=2, verbose=3, debug=4; a minimal-level
event passes for every configured level, and configured level debug admits
every event. -/
theorem should_log_iff_rank_le (e : MonitoringEvent) (V : LogLevel) :
    (e.should_log V = true ↔ level_hierarchy e.level ≤ level_hierarchy V) ∧
    ({ e with level := LogLevel.minimal } : MonitoringEvent).should_log V = true ∧
    e.should_log LogLevel.debug = true := by
  have hbound : ∀ l : LogLevel, level_hierarchy l ≤ 4 := by
    intro l; cases l <;> decide
  refine ⟨by simp [MonitoringEvent.should_log], ?_, ?_⟩
  · cases V <;> simp [MonitoringEvent.should_log, level_hierarchy]
  · simp only [MonitoringEvent.should_log, decide_eq_true_eq]
    simpa [level_hierarchy] using hbound e.level

/-- Claim C3: a retention buffer of capacity N > 0 (a `deque` with
`maxlen = N`, core.py line 240) that receives N + k events (k > 0) via
`append` retains exactly the N most recent events with oldest-first order
preserved; eviction happens at insert time inside `append` itself. -/
theorem retention_buffer_keeps_last_N {α : Type} (N k : Nat) (xs : List α)
    (hN : 0 < N) (hk : 0 < k) (hlen : xs.length = N + k) :
    List.foldl (dequePush N) [] xs = xs.drop k ∧
    (List.foldl (dequePush N) [] xs).length = N := by
  have h := dequePush_foldl N xs
  rw [hlen] at h
  have hdrop : N + k - N = k := by omega
  rw [hdrop] at h
  refine ⟨h, ?_⟩
  rw [h, List.length_drop, hlen]
  omega

/-- Witness for C3 at a concrete input: capacity 2, five inserts keep the
last two. -/
theorem retention_buffer_keeps_last_N_witness :
    List.foldl (dequePush 2) [] [10, 20, 30, 40, 50] = [40, 50] ∧
    (List.foldl (dequePush 2) [] [10, 20, 30, 40, 50]).length = 2 := by
  have h := retention_buffer_keeps_last_N (α := Nat) 2 3 [10, 20, 30, 40, 50]
    (by decide) (by decide) (by decide)
  simpa using h

/-- Claim C2: when the tracked body raises an exception with message msg,
`track_operation` submits exactly a start event, then an ANALYSIS_ERROR
event whose error message equals msg, then a complete event whose success
flag is false, in that order, and the exception propagates unmodified;
when the body returns normally, it submits a start event then a complete
event with success true and no event carrying an error message. -/
theorem track_operation_start_error_complete {α : Type} (event_id : String)
    (op : EventType) (lvl : LogLevel) (pp fp sid : Option String)
    (tS tErr tE : ℚ) (body : Except String α) (evs : List MonitoringEvent)
    (res : Except String α)
    (hr : OptimizedMonitoringSystem.track_operation event_id op lvl pp fp sid tS tErr tE body
            = (evs, res)) :
    (∀ msg, body = Except.error msg →
      res = Except.error msg ∧
      evs.map MonitoringEvent.event_id
        = [event_id ++ "_start", event_id ++ "_error", event_id ++ "_complete"] ∧
      (evs[1]?).map (fun e => (e.event_type, e.error_message))
        = some (EventType.ANALYSIS_ERROR, some msg) ∧
      (evs[2]?).bind (fun e => e.metadata.lookup "success")
        = some (JsonVal.boolean false)) ∧
    (∀ a, body = Except.ok a →
      res = Except.ok a ∧
      evs.map MonitoringEvent.event_id = [event_id ++ "_start", event_id ++ "_complete"] ∧
      (evs[1]?).bind (fun e => e.metadata.lookup "success")
        = some (JsonVal.boolean true) ∧
      evs.filter (fun e => e.error_message.isSome) = []) := by
  constructor
  · intro msg hmsg
    subst hmsg
    simp only [OptimizedMonitoringSystem.track_operation, Prod.mk.injEq] at hr
    obtain ⟨hEvs, hRes⟩ := hr
    subst hEvs
    subst hRes
    refine ⟨rfl, rfl, rfl, ?_⟩
    simp [List.lookup]
  · intro a ha
    subst ha
    simp only [OptimizedMonitoringSystem.track_operation, Prod.mk.injEq] at hr
    obtain ⟨hEvs, hRes⟩ := hr
    subst hEvs
    subst hRes
    refine ⟨rfl, rfl, ?_, ?_⟩
    · simp [List.lookup]
    · simp [List.filter]

/-- Witness for C2 at a concrete input: a body failing with message "x"
(the str of ValueError("x")) yields the start/error/complete triple in
order, and the error propagates. -/
theorem track_operation_start_error_complete_witness :
    (OptimizedMonitoringSystem.track_operation (α := Nat) "evt1"
        EventType.ANALYSIS_START LogLevel.standard none none none 0 0 0
        (Except.error "x")).2 = Except.error "x" ∧
    ((OptimizedMonitoringSystem.track_operation (α := Nat) "evt1"
        EventType.ANALYSIS_START LogLevel.standard none none none 0 0 0
        (Except.error "x")).1.map MonitoringEvent.event_id)
      = ["evt1_start", "evt1_error", "evt1_complete"] := by
  have h := track_operation_start_error_complete (α := Nat) "evt1"
    EventType.ANALYSIS_START LogLevel.standard none none none 0 0 0
    (Except.error "x") _ _ rfl
  exact ⟨(h.1 "x" rfl).1, (h.1 "x" rfl).2.1⟩

/-- A push into a bounded deque that still has room is a plain append. -/
theorem dequePush_of_lt {α : Type} (cap : Nat) (buf : List α) (x : α)
    (h : buf.length < cap) : dequePush cap buf x = buf ++ [x] := by
  show List.drop ((buf ++ [x]).length - cap) (buf ++ [x]) = buf ++ [x]
  have h0 : (buf ++ [x]).length - cap = 0 := by
    simp only [List.length_append, List.length_cons, List.length_nil]
    omega
  rw [h0, List.drop_zero]

/-- Folding `log_event` over events that all pass the filter, while the
buffer stays strictly below the batch size and within capacity, only
appends to the buffer: no flush happens. -/
theorem log_event_foldl_no_flush (st : OptimizedMonitoringSystem)
    (es : List MonitoringEvent)
    (hpass : ∀ e ∈ es, e.should_log st.config.log_level = true)
    (hroom : (st.events_buffer.length : Int) + es.length < st.config.event_batch_size)
    (hcap : st.events_buffer.length + es.length ≤ st.events_capacity) :
    es.foldl OptimizedMonitoringSystem.log_event st
      = { st with events_buffer := st.events_buffer ++ es } := by
  induction es generalizing st with
  | nil => simp
  | cons e rest ih =>
    have hpass_e : e.should_log st.config.log_level = true := hpass e (by simp)
    have hlt : st.events_buffer.length < st.events_capacity := by
      simp only [List.length_cons] at hcap
      omega
    have hstep : st.log_event e = { st with events_buffer := st.events_buffer ++ [e] } := by
      unfold OptimizedMonitoringSystem.log_event
      rw [hpass_e]
      simp only [Bool.not_true, Bool.false_eq_true, if_false]
      rw [dequePush_of_lt st.events_capacity st.events_buffer e hlt]
      rw [if_neg]
      simp only [List.length_append, List.length_cons, List.length_nil, List.length_cons] at hroom ⊢
      push_cast
      push_cast at hroom
      omega
    rw [List.foldl_cons, hstep]
    rw [ih]
    · simp
    · intro e2 he2
      exact hpass e2 (by simp [he2])
    · simp only [List.length_append, List.length_cons, List.length_nil,
        List.length_cons] at hroom ⊢
      push_cast at hroom ⊢
      omega
    · simp only [List.length_append, List.length_cons, List.length_nil,
        List.length_cons] at hcap ⊢
      omega

/-- A `log_event` that fills the buffer up to exactly the batch size
flushes: the whole queue is handed to every exporter and the queue is
cleared. -/
theorem log_event_flush_step (st : OptimizedMonitoringSystem) (x : MonitoringEvent)
    (hpass : x.should_log st.config.log_level = true)
    (hlen : (st.events_buffer.length : Int) + 1 = st.config.event_batch_size)
    (hcap : st.events_buffer.length < st.events_capacity) :
    st.log_event x = { st with
      events_buffer := []
      exported := st.exported ++
        st.exporters.map (fun s => (s, st.events_buffer ++ [x])) } := by
  unfold OptimizedMonitoringSystem.log_event
  rw [hpass]
  simp only [Bool.not_true, Bool.false_eq_true, if_false]
  rw [dequePush_of_lt st.events_capacity st.events_buffer x hcap]
  rw [if_pos (by
    simp only [List.length_append, List.length_cons, List.length_nil]
    push_cast
    omega)]
  unfold OptimizedMonitoringSystem.flush_events_batch
  rw [if_neg (by simp)]

/-- Claim C4: starting from an empty queue, logging exactly
`event_batch_size` filter-passing events triggers exactly one flush in
which the whole list of queued events is handed to every registered sink
and the queue is empty immediately afterwards, while logging
`event_batch_size - 1` such events triggers zero sink writes (stated for
a capacity that can hold a full batch, which holds in every configuration
the repository constructs). -/
theorem batch_flush_at_batch_size (cfg : MonitoringConfig) (cap : Nat)
    (sinks : List Nat) (es es2 : List MonitoringEvent)
    (hB : 0 < cfg.event_batch_size)
    (hcap : cfg.event_batch_size ≤ (cap : Int))
    (hlen : (es.length : Int) = cfg.event_batch_size)
    (hlen2 : (es2.length : Int) = cfg.event_batch_size - 1)
    (hpass : ∀ e ∈ es, e.should_log cfg.log_level = true)
    (hpass2 : ∀ e ∈ es2, e.should_log cfg.log_level = true) :
    ((es.foldl OptimizedMonitoringSystem.log_event
        { config := cfg, events_capacity := cap, metrics_capacity := 0,
          exporters := sinks }).exported
        = sinks.map (fun s => (s, es)) ∧
      (es.foldl OptimizedMonitoringSystem.log_event
        { config := cfg, events_capacity := cap, metrics_capacity := 0,
          exporters := sinks }).events_buffer = []) ∧
    ((es2.foldl OptimizedMonitoringSystem.log_event
        { config := cfg, events_capacity := cap, metrics_capacity := 0,
          exporters := sinks }).exported = [] ∧
      (es2.foldl OptimizedMonitoringSystem.log_event
        { config := cfg, events_capacity := cap, metrics_capacity := 0,
          exporters := sinks }).events_buffer = es2) := by
  constructor
  · rcases List.eq_nil_or_concat es with hnil | ⟨ys, x, hx⟩
    · subst hnil
      simp only [List.length_nil, Nat.cast_zero] at hlen
      omega
    · subst hx
      simp only [List.concat_eq_append] at hlen hpass ⊢
      have hlen' : (ys.length : Int) + 1 = cfg.event_batch_size := by
        simpa using hlen
      have hfold := log_event_foldl_no_flush
        { config := cfg, events_capacity := cap, metrics_capacity := 0,
          exporters := sinks } ys
        (fun e he => hpass e (by simp [he]))
        (by simp only [List.length_nil, Nat.cast_zero, zero_add]; omega)
        (by simp only [List.length_nil, Nat.zero_add]; omega)
      rw [List.foldl_append, List.foldl_cons, List.foldl_nil, hfold]
      rw [log_event_flush_step _ x (hpass x (by simp))
        (by simpa using hlen') (by simpa using by omega)]
      constructor
      · simp
      · rfl
  · have hfold2 := log_event_foldl_no_flush
      { config := cfg, events_capacity := cap, metrics_capacity := 0,
        exporters := sinks } es2 hpass2
      (by simp only [List.length_nil, Nat.cast_zero, zero_add]; omega)
      (by simp only [List.length_nil, Nat.zero_add]; omega)
    rw [hfold2]
    exact ⟨rfl, by simp⟩

/-- Witness for C4 at a concrete input: batch size 2, one sink; two
passing events produce one flush containing both and an empty queue; one
passing event produces no sink write. -/
theorem batch_flush_at_batch_size_witness :
    (([sampleEventA, sampleEventB].foldl OptimizedMonitoringSystem.log_event
        { config := { event_batch_size := 2 }, events_capacity := 10,
          metrics_capacity := 0, exporters := [0] }).exported
      = [(0, [sampleEventA, sampleEventB])]) ∧
    (([sampleEventA].foldl OptimizedMonitoringSystem.log_event
        { config := { event_batch_size := 2 }, events_capacity := 10,
          metrics_capacity := 0, exporters := [0] }).exported = []) := by
  have h := batch_flush_at_batch_size { event_batch_size := 2 } 10 [0]
    [sampleEventA, sampleEventB] [sampleEventA]
    (by decide) (by decide) (by decide) (by decide) (by decide) (by decide)
  exact ⟨by simpa using h.1.1, h.2.1⟩

/-- Counterexample to claim C5 as stated: the configuration with
`max_events_in_memory = 0` is one the claim covers (max events ≤ 0), yet
constructing the monitoring system succeeds — no configuration error is
raised at construction — and insertion into the zero-capacity buffer IS
reached at insert time, silently retaining nothing. -/
theorem zero_capacity_config_constructs :
    ({ max_events_in_memory := 0 } : MonitoringConfig).max_events_in_memory ≤ 0 ∧
    validate_monitoring_config { max_events_in_memory := 0 } = false ∧
    (OptimizedMonitoringSystem.init { max_events_in_memory := 0 }).isOk = true ∧
    ((OptimizedMonitoringSystem.init { max_events_in_memory := 0 }).map
        (fun st => (st.log_event sampleEventA).events_buffer))
      = Except.ok [] := by
  refine ⟨by decide, by decide, by decide, by rfl⟩

/-- Claim C5 (amended): every configuration with max events ≤ 0, batch
size ≤ 0, retention horizon ≤ 0 or a warning threshold outside [0,100] is
rejected by `validate_monitoring_config` (it returns false); but the
validator is not invoked during construction, and
`OptimizedMonitoringSystem.__init__` succeeds for every configuration
with a non-negative capacity, so such configurations do reach insert
time. -/
theorem invalid_config_fails_validator (c : MonitoringConfig)
    (h : c.max_events_in_memory ≤ 0 ∨ c.event_batch_size ≤ 0 ∨
      c.metrics_retention_hours ≤ 0 ∨
      c.memory_warning_threshold < 0 ∨ 100 < c.memory_warning_threshold ∨
      c.cpu_warning_threshold < 0 ∨ 100 < c.cpu_warning_threshold) :
    validate_monitoring_config c = false ∧
    (0 ≤ c.max_events_in_memory → (OptimizedMonitoringSystem.init c).isOk = true) := by
  constructor
  · simp only [validate_monitoring_config, decide_eq_false_iff_not]
    intro hall
    obtain ⟨h1, h2, h3, ⟨h4, h5⟩, h6, h7⟩ := hall
    rcases h with h|h|h|h|h|h|h
    · omega
    · omega
    · omega
    · linarith
    · linarith
    · linarith
    · linarith
  · intro h0
    unfold OptimizedMonitoringSystem.init
    rw [if_neg (by omega)]
    rfl

/-- Witness for C5 (amended) at a concrete input: the zero-capacity
configuration fails validation yet constructs successfully. -/
theorem invalid_config_fails_validator_witness :
    validate_monitoring_config { max_events_in_memory := 0 } = false ∧
    (OptimizedMonitoringSystem.init { max_events_in_memory := 0 }).isOk = true := by
  have h := invalid_config_fails_validator { max_events_in_memory := 0 }
    (Or.inl (by decide))
  exact ⟨h.1, h.2 (by decide)⟩

/-- Counterexample to claim C6 as stated: `ts` is a numeric field of the
serialized object, yet it is NOT rounded to 2 decimal places — the code
emits `timestamp.timestamp()` unchanged. For a metric whose timestamp is
the epoch instant 1/1000 s (sub-centisecond precision is the norm for
`timestamp()`), the serialized `ts` is no integer multiple of 1/100, so
"all numeric fields are rounded to 2 decimal places" fails. -/
theorem metric_ts_not_rounded_counterexample :
    (PerformanceMetrics.to_dict
        { timestamp := 1/1000, cpu_percent := 0, memory_percent := 0,
          memory_used_mb := 0, disk_usage_percent := 0,
          active_connections := 0 }).ts = 1/1000 ∧
    ¬ ∃ n : ℤ, (PerformanceMetrics.to_dict
        { timestamp := 1/1000, cpu_percent := 0, memory_percent := 0,
          memory_used_mb := 0, disk_usage_percent := 0,
          active_connections := 0 }).ts = (n : ℚ) / 100 := by
  refine ⟨rfl, ?_⟩
  rintro ⟨n, hn⟩
  have hn2 : (1 : ℚ)/1000 = (n : ℚ)/100 := hn
  have h10 : ((n * 10 : ℤ) : ℚ) = ((1 : ℤ) : ℚ) := by
    push_cast
    field_simp at hn2
    linarith
  have h3 : (n * 10 : ℤ) = 1 := Int.cast_injective h10
  omega

/-- Claim C6 (amended): serializing a metric yields the object with keys
ts, cpu, mem, mem_mb, disk, conn, rt in which ts is the numeric epoch of
the timestamp passed through unrounded (a JSON-serializable number, so no
TypeError can arise) and conn the integer connection count; the four
float fields cpu, mem, mem_mb, disk — and rt whenever the response time
is present and nonzero — are rounded to 2 decimal places (exact integer
multiples of 1/100); rt is omitted (None) when the response time is
absent or zero; and re-parsing the serialized timestamp yields an
instant within 1 second of the original. -/
theorem metric_to_dict_fields_round_trip (m : PerformanceMetrics) :
    (m.to_dict.ts = m.timestamp ∧
     m.to_dict.conn = m.active_connections ∧
     |datetime_fromtimestamp m.to_dict.ts - m.timestamp| ≤ 1) ∧
    (m.to_dict.cpu = round2 m.cpu_percent ∧
     m.to_dict.mem = round2 m.memory_percent ∧
     m.to_dict.mem_mb = round2 m.memory_used_mb ∧
     m.to_dict.disk = round2 m.disk_usage_percent) ∧
    ((∃ n : ℤ, m.to_dict.cpu = (n : ℚ) / 100) ∧
     (∃ n : ℤ, m.to_dict.mem = (n : ℚ) / 100) ∧
     (∃ n : ℤ, m.to_dict.mem_mb = (n : ℚ) / 100) ∧
     (∃ n : ℤ, m.to_dict.disk = (n : ℚ) / 100)) ∧
    (∀ r : ℚ, m.response_time_ms = some r → r ≠ 0 →
      m.to_dict.rt = some (round2 r) ∧
      ∃ n : ℤ, m.to_dict.rt = some ((n : ℚ) / 100)) ∧
    (m.response_time_ms = none → m.to_dict.rt = none) ∧
    (m.response_time_ms = some 0 → m.to_dict.rt = none) := by
  refine ⟨⟨rfl, rfl, ?_⟩,
    ⟨rfl, rfl, rfl, rfl⟩,
    ⟨⟨pyRound (m.cpu_percent * 100), rfl⟩,
     ⟨pyRound (m.memory_percent * 100), rfl⟩,
     ⟨pyRound (m.memory_used_mb * 100), rfl⟩,
     ⟨pyRound (m.disk_usage_percent * 100), rfl⟩⟩, ?_, ?_, ?_⟩
  · have hz : datetime_fromtimestamp m.to_dict.ts - m.timestamp = 0 := by
      simp [datetime_fromtimestamp, PerformanceMetrics.to_dict]
    rw [hz, abs_zero]
    norm_num
  · intro r hr hne
    constructor
    · simp [PerformanceMetrics.to_dict, hr, hne]
    · exact ⟨pyRound (r * 100), by simp [PerformanceMetrics.to_dict, round2, hr, hne]⟩
  · intro hr
    simp [PerformanceMetrics.to_dict, hr]
  · intro hr
    simp [PerformanceMetrics.to_dict, hr]

/-- Witness for C6 (amended) at a concrete input: a metric with response
time 1/3 ms serializes rt to the rounded value round2 (1/3) = 33/100. -/
theorem metric_to_dict_fields_round_trip_witness :
    (PerformanceMetrics.to_dict
        { timestamp := 0, cpu_percent := 0, memory_percent := 0,
          memory_used_mb := 0, disk_usage_percent := 0,
          active_connections := 0, response_time_ms := some (1/3) }).rt
      = some (round2 (1/3)) ∧
    round2 ((1 : ℚ)/3) = 33/100 := by
  have h := metric_to_dict_fields_round_trip
    { timestamp := 0, cpu_percent := 0, memory_percent := 0,
      memory_used_mb := 0, disk_usage_percent := 0,
      active_connections := 0, response_time_ms := some (1/3) }
  refine ⟨(h.2.2.2.1 (1/3) rfl (by norm_num)).1, ?_⟩
  have hfloor : ⌊((1 : ℚ)/3) * 100⌋ = 33 := by
    rw [Int.floor_eq_iff]
    norm_num
  simp only [round2, pyRound, hfloor]
  rw [if_pos (by norm_num)]
  norm_num

/-- Claim C7: logging an event that carries performance metrics whose
timestamp is a datetime reassigns, as a side effect of the log call, that
metric record's timestamp field in place to its ISO string form: the
caller-visible metric object is mutated (and the field's type changes
from datetime to string), and the stored event is that same mutated
object. -/
theorem log_event_mutates_metric_timestamp (st : AdvancedAnalyticsLogger)
    (e : AnalysisEvent) (m : OldPerformanceMetrics) (t : ℚ)
    (hm : e.performance_metrics = some m)
    (ht : m.timestamp = TimestampVal.dtime t) :
    ∃ st2 e2, st.log_event e = some (st2, e2) ∧
      e2.performance_metrics.map OldPerformanceMetrics.timestamp
        = some (TimestampVal.iso (iso_format t)) ∧
      st2.events.getLast? = some e2 := by
  unfold AdvancedAnalyticsLogger.log_event serialize_event_metrics
  simp only [hm, ht]
  refine ⟨_, _, rfl, by simp, by simp⟩

/-- Witness for C7 at a concrete input: logging the sample event mutates
its metric timestamp from the instant 5 to the ISO string of 5. -/
theorem log_event_mutates_metric_timestamp_witness :
    (AdvancedAnalyticsLogger.log_event {} sampleOldEvent).map
        (fun r => r.2.performance_metrics.map OldPerformanceMetrics.timestamp)
      = some (some (TimestampVal.iso (iso_format 5))) := by
  obtain ⟨st2, e2, h1, h2, h3⟩ :=
    log_event_mutates_metric_timestamp {} sampleOldEvent sampleOldMetrics 5 rfl rfl
  rw [h1]
  simpa using h2

/-- Folding successful mirrored calls accumulates the two duration lists
and the two event counters, leaving the error counters unchanged. -/
theorem record_mirrored_foldl (ps : List (ℚ × ℚ)) (s : ComparisonStats) :
    ps.foldl (fun a p => record_mirrored_success a p.1 p.2) s
      = { s with
          events_logged_new := s.events_logged_new + ps.length
          events_logged_old := s.events_logged_old + ps.length
          performance_new := s.performance_new ++ ps.map Prod.fst
          performance_old := s.performance_old ++ ps.map Prod.snd } := by
  induction ps generalizing s with
  | nil => simp
  | cons p rest ih =>
    rw [List.foldl_cons, ih]
    simp only [record_mirrored_success, List.map_cons, List.length_cons]
    congr 1 <;> first | omega | simp

/-- Claim C8: with both stacks enabled and comparison mode on, after n
successful mirrored log calls on each stack the comparison report shows
event counts equal to n for each stack, an error rate per stack of
errors / max(events, 1) x 100 — hence 0 when no call raised — the average
per-call latency per stack in milliseconds, and a verdict naming as
faster the stack whose average latency is strictly lower. -/
theorem comparison_report_after_n_success (n : Nat) (ps : List (ℚ × ℚ))
    (r : ComparisonReport) (hn : ps.length = n)
    (hr : r = HybridMonitoringSystem.generate_comparison_report
      (ps.foldl (fun a p => record_mirrored_success a p.1 p.2) {})) :
    r.events_new = n ∧ r.events_old = n ∧
    r.error_rate_new = 0 ∧ r.error_rate_old = 0 ∧
    r.avg_ms_new = listAvg (ps.map Prod.fst) * 1000 ∧
    r.avg_ms_old = listAvg (ps.map Prod.snd) * 1000 ∧
    (listAvg (ps.map Prod.fst) < listAvg (ps.map Prod.snd) →
      r.faster_system = "new") ∧
    (listAvg (ps.map Prod.snd) < listAvg (ps.map Prod.fst) →
      r.faster_system = "old") := by
  subst hr
  subst hn
  rw [record_mirrored_foldl]
  unfold HybridMonitoringSystem.generate_comparison_report
  refine ⟨by simp, by simp, by simp, by simp, by simp, by simp, ?_, ?_⟩
  · intro h
    simp only [List.nil_append]
    rw [if_pos h]
  · intro h
    simp only [List.nil_append]
    rw [if_neg (not_lt.mpr (le_of_lt h))]

/-- Witness for C8 at a concrete input: one mirrored call with new-stack
latency 1s and old-stack latency 2s gives counts 1, zero error rates and
the verdict "new". -/
theorem comparison_report_after_n_success_witness :
    (HybridMonitoringSystem.generate_comparison_report
        ([((1 : ℚ), (2 : ℚ))].foldl
          (fun a p => record_mirrored_success a p.1 p.2) {})).events_new = 1 ∧
    (HybridMonitoringSystem.generate_comparison_report
        ([((1 : ℚ), (2 : ℚ))].foldl
          (fun a p => record_mirrored_success a p.1 p.2) {})).error_rate_new = 0 ∧
    (HybridMonitoringSystem.generate_comparison_report
        ([((1 : ℚ), (2 : ℚ))].foldl
          (fun a p => record_mirrored_success a p.1 p.2) {})).faster_system = "new" := by
  have h := comparison_report_after_n_success 1 [(1, 2)] _ rfl rfl
  exact ⟨h.1, h.2.2.1, h.2.2.2.2.2.2.1 (by norm_num [listAvg])⟩

/-- Counterexample to claim C9 as stated: MEMORY_WARNING has no entry in
the event-vocabulary mapping table in either direction, yet with both
stacks enabled the mirrored call to the new stack is NOT dropped: an
event of the fallback kind ANALYSIS_START is logged to the new system.
Only the mirrored call to the old stack is dropped. -/
theorem unmapped_kind_not_dropped_for_new_stack :
    old_to_new_lookup (KindInput.new EventType.MEMORY_WARNING) = none ∧
    EventTypeMapper.new_to_old EventType.MEMORY_WARNING = none ∧
    (HybridMonitoringSystem.log_event_kinds true true
        (KindInput.new EventType.MEMORY_WARNING)).1
      = some EventType.ANALYSIS_START ∧
    (HybridMonitoringSystem.log_event_kinds true true
        (KindInput.new EventType.MEMORY_WARNING)).2 = none := by
  decide

/-- Claim C9 (amended): a kind with no entry in the new-to-old table is
silently dropped for the old stack (nothing is logged there and no
exception is raised); in the old-to-new direction an unmapped kind is
not dropped but silently replaced by the fallback kind ANALYSIS_START
and logged to the new stack. (Every old-enum kind has an old-to-new
entry, so the fallback fires exactly for new-enum kinds, which reach the
old-to-new translation because the hasattr guard holds for both
enumerations.) -/
theorem unmapped_kind_routing :
    (∀ t : EventType, EventTypeMapper.new_to_old t = none →
      (HybridMonitoringSystem.log_event_kinds true true (KindInput.new t)).2
        = none) ∧
    (∀ k : KindInput, old_to_new_lookup k = none →
      (HybridMonitoringSystem.log_event_kinds true true k).1
        = some EventType.ANALYSIS_START) := by
  constructor
  · intro t ht
    cases t <;> first | rfl | simp [EventTypeMapper.new_to_old] at ht
  · intro k hk
    cases k with
    | old o => cases o <;> simp [old_to_new_lookup] at hk
    | new t => rfl

/-- Witness for C9 (amended) at a concrete input: SYSTEM_SHUTDOWN has no
new-to-old entry and the old-stack mirrored call logs nothing. -/
theorem unmapped_kind_routing_witness :
    (HybridMonitoringSystem.log_event_kinds true true
        (KindInput.new EventType.SYSTEM_SHUTDOWN)).2 = none :=
  unmapped_kind_routing.1 EventType.SYSTEM_SHUTDOWN rfl

/-- Looking up the key just written by `updateAssoc` yields the new value. -/
theorem lookup_updateAssoc_self (k : String) (v : SessionStats)
    (l : List (String × SessionStats)) :
    (updateAssoc k v l).lookup k = some v := by
  induction l with
  | nil => simp [updateAssoc, List.lookup]
  | cons p rest ih =>
    obtain ⟨k2, v2⟩ := p
    unfold updateAssoc
    by_cases h : k2 = k
    · rw [if_pos h]
      simp [List.lookup]
    · rw [if_neg h]
      have hb : (k == k2) = false := beq_eq_false_iff_ne.mpr (fun hh => h hh.symm)
      simp [List.lookup, hb, ih]

/-- `updateAssoc` leaves every other key's binding unchanged. -/
theorem lookup_updateAssoc_ne (k k2 : String) (v : SessionStats)
    (l : List (String × SessionStats)) (h : k2 ≠ k) :
    (updateAssoc k v l).lookup k2 = l.lookup k2 := by
  induction l with
  | nil =>
    have hb : (k2 == k) = false := beq_eq_false_iff_ne.mpr h
    simp [updateAssoc, List.lookup, hb]
  | cons p rest ih =>
    obtain ⟨k3, v3⟩ := p
    unfold updateAssoc
    by_cases h3 : k3 = k
    · rw [if_pos h3]
      subst h3
      have hb : (k2 == k3) = false := beq_eq_false_iff_ne.mpr h
      simp [List.lookup, hb]
    · rw [if_neg h3]
      simp [List.lookup, ih]

/-- After `update_session_stats` for an event of session sid, that
session's aggregate exists, its event count grew by one and its error
count grew exactly when the event kind's value contains "error". -/
theorem update_session_stats_lookup (stats : List (String × SessionStats))
    (e : AnalysisEvent) (sid : String) (h : e.user_session_id = some sid)
    (hsid : sid ≠ "") :
    ∃ s2, (update_session_stats stats e).lookup sid = some s2 ∧
      s2.events_count = (((stats.lookup sid).map SessionStats.events_count).getD 0) + 1 ∧
      s2.errors_count = (((stats.lookup sid).map SessionStats.errors_count).getD 0)
        + (if containsSub "error" e.event_type.value then 1 else 0) := by
  unfold update_session_stats
  simp only [h, if_neg hsid]
  refine ⟨_, lookup_updateAssoc_self _ _ _, ?_, ?_⟩
  · cases hls : stats.lookup sid <;>
      cases hd : e.duration_ms <;>
        simp only [hls, hd, Option.map_none, Option.map_some, Option.getD_none,
          Option.getD_some] <;>
      split_ifs <;> rfl
  · cases hls : stats.lookup sid <;>
      cases hd : e.duration_ms <;>
        simp only [hls, hd, Option.map_none, Option.map_some, Option.getD_none,
          Option.getD_some] <;>
      split_ifs <;> rfl

/-- `update_session_stats` for an event of session sid does not touch any
other session's aggregate. -/
theorem update_session_stats_frame (stats : List (String × SessionStats))
    (e : AnalysisEvent) (sid key : String) (h : e.user_session_id = some sid)
    (hne : sid ≠ key) :
    (update_session_stats stats e).lookup key = stats.lookup key := by
  unfold update_session_stats
  simp only [h]
  by_cases hsid : sid = ""
  · rw [if_pos hsid]
  · rw [if_neg hsid]
    exact lookup_updateAssoc_ne sid key _ stats (fun hh => hne hh.symm)

/-- The serialization step of the old `log_event` only touches the
attached metrics: session id, kind, duration and timestamp survive. -/
theorem serialize_preserves (e e2 : AnalysisEvent)
    (h : serialize_event_metrics e = some e2) :
    e2.user_session_id = e.user_session_id ∧ e2.event_type = e.event_type ∧
    e2.duration_ms = e.duration_ms ∧ e2.timestamp = e.timestamp := by
  unfold serialize_event_metrics at h
  cases hp : e.performance_metrics with
  | none =>
    simp only [hp, Option.some.injEq] at h
    subst h
    exact ⟨rfl, rfl, rfl, rfl⟩
  | some m =>
    cases htv : m.timestamp with
    | dtime t =>
      simp only [hp, htv, Option.some.injEq] at h
      subst h
      exact ⟨rfl, rfl, rfl, rfl⟩
    | iso s =>
      simp only [hp, htv] at h
      exact Option.noConfusion h

/-- Characterization of a successful old-stack `log_event`: the stored
event list grows by the (serialized) event, the session statistics are
updated with it, and its session id and kind equal the input event's. -/
theorem log_event_some_spec (st : AdvancedAnalyticsLogger) (e : AnalysisEvent)
    (st2 : AdvancedAnalyticsLogger) (f : AnalysisEvent)
    (h : st.log_event e = some (st2, f)) :
    st2.events = st.events ++ [f] ∧
    st2.session_stats = update_session_stats st.session_stats f ∧
    f.user_session_id = e.user_session_id ∧
    f.event_type = e.event_type := by
  unfold AdvancedAnalyticsLogger.log_event at h
  cases hser : serialize_event_metrics e with
  | none => rw [hser] at h; cases h
  | some e2 =>
    rw [hser] at h
    simp only [Option.some.injEq, Prod.mk.injEq] at h
    obtain ⟨hmk, hf⟩ := h
    subst hf
    obtain ⟨hsid, htyp, _, _⟩ := serialize_preserves e e2 hser
    rw [← hmk]
    exact ⟨rfl, rfl, hsid, htyp⟩

/-- Claim C10: for distinct session ids S and T (a session id is a
Python-truthy, hence non-empty, string — the source's
`if event.user_session_id:` guard treats the empty string as carrying no
session), logging two events of session S and one of session T from a
fresh legacy logger yields a summary for S whose aggregate event count
and matching-event count both equal 2; an event of session S never
changes T's aggregate (lazily, T has no aggregate at all until its first
event); and a session's error counter increments exactly when the logged
event kind's name contains "error". -/
theorem session_aggregator_counts (S T : String) (e1 e2 e3 : AnalysisEvent)
    (s1 s2 s3 : AdvancedAnalyticsLogger) (f1 f2 f3 : AnalysisEvent)
    (hST : S ≠ T) (hS : S ≠ "")
    (h1 : e1.user_session_id = some S) (h2 : e2.user_session_id = some S)
    (h3 : e3.user_session_id = some T)
    (hl1 : AdvancedAnalyticsLogger.log_event {} e1 = some (s1, f1))
    (hl2 : s1.log_event e2 = some (s2, f2))
    (hl3 : s2.log_event e3 = some (s3, f3)) :
    (s3.get_analytics_summary S).map (fun p => (p.1.events_count, p.2))
      = some (2, 2) ∧
    s2.session_stats.lookup T = none ∧
    (∀ (st st2 : AdvancedAnalyticsLogger) (e f : AnalysisEvent),
      e.user_session_id = some S → st.log_event e = some (st2, f) →
      st2.session_stats.lookup T = st.session_stats.lookup T) ∧
    (∀ (st st2 : AdvancedAnalyticsLogger) (e f : AnalysisEvent) (sid : String),
      e.user_session_id = some sid → sid ≠ "" →
      st.log_event e = some (st2, f) →
      ((st2.session_stats.lookup sid).map SessionStats.errors_count).getD 0
        = ((st.session_stats.lookup sid).map SessionStats.errors_count).getD 0
          + (if containsSub "error" e.event_type.value then 1 else 0)) := by
  have hframe : ∀ (st st2 : AdvancedAnalyticsLogger) (e f : AnalysisEvent)
      (sid key : String), sid ≠ key → e.user_session_id = some sid →
      st.log_event e = some (st2, f) →
      st2.session_stats.lookup key = st.session_stats.lookup key := by
    intro st st2 e f sid key hne he hl
    obtain ⟨_, hss, hsid, _⟩ := log_event_some_spec st e st2 f hl
    rw [hss]
    exact update_session_stats_frame _ _ sid key (hsid.trans he) hne
  obtain ⟨hev1, hss1, hsid1, htyp1⟩ := log_event_some_spec _ e1 s1 f1 hl1
  obtain ⟨hev2, hss2, hsid2, htyp2⟩ := log_event_some_spec _ e2 s2 f2 hl2
  obtain ⟨hev3, hss3, hsid3, htyp3⟩ := log_event_some_spec _ e3 s3 f3 hl3
  have hfs1 : f1.user_session_id = some S := hsid1.trans h1
  have hfs2 : f2.user_session_id = some S := hsid2.trans h2
  have hfs3 : f3.user_session_id = some T := hsid3.trans h3
  obtain ⟨a1, ha1, ha1e, ha1err⟩ :=
    update_session_stats_lookup ({} : AdvancedAnalyticsLogger).session_stats f1 S hfs1 hS
  obtain ⟨a2, ha2, ha2e, ha2err⟩ :=
    update_session_stats_lookup s1.session_stats f2 S hfs2 hS
  have hlookS3 : s3.session_stats.lookup S = some a2 := by
    rw [hframe s2 s3 e3 f3 T S (fun hh => hST hh.symm) h3 hl3]
    rw [hss2]
    exact ha2
  have ha1e2 : a1.events_count = 1 := by
    simpa using ha1e
  have ha2e2 : a2.events_count = 2 := by
    rw [ha2e, hss1, ha1]
    simp [ha1e2]
  have hcount : (s3.events.filter
      (fun e => e.user_session_id == some S)).length = 2 := by
    have hp1 : (f1.user_session_id == some S) = true := by
      rw [hfs1]; exact beq_self_eq_true _
    have hp2 : (f2.user_session_id == some S) = true := by
      rw [hfs2]; exact beq_self_eq_true _
    have hp3 : (f3.user_session_id == some S) = false := by
      rw [hfs3]
      exact beq_eq_false_iff_ne.mpr (fun hh => hST (Option.some.inj hh).symm)
    rw [hev3, hev2, hev1]
    simp [List.filter_append, List.filter, hp1, hp2, hp3]
  refine ⟨?_, ?_, ?_, ?_⟩
  · unfold AdvancedAnalyticsLogger.get_analytics_summary
    rw [if_neg hS, hlookS3, hcount]
    simp [ha2e2]
  · rw [hframe s1 s2 e2 f2 S T hST h2 hl2, hframe {} s1 e1 f1 S T hST h1 hl1]
    rfl
  · intro st st2 e f he hl
    exact hframe st st2 e f S T hST he hl
  · intro st st2 e f sid he hsidne hl
    obtain ⟨_, hss, hsid, htyp⟩ := log_event_some_spec st e st2 f hl
    obtain ⟨ax, hax, _, haxerr⟩ :=
      update_session_stats_lookup st.session_stats f sid (hsid.trans he) hsidne
    rw [hss, hax]
    simp [haxerr, htyp]

/-- Witness for C10 at a concrete input: sessions "s" and "t", two "s"
events (one of an error kind) and one "t" event give summary event
counts (2, 2) for "s". -/
theorem session_aggregator_counts_witness :
    (((AdvancedAnalyticsLogger.log_event {} sessionEvent1).bind
        (fun r => r.1.log_event sessionEvent2)).bind
        (fun r => r.1.log_event sessionEvent3)).map
      (fun r => (r.1.get_analytics_summary "s").map
        (fun p => (p.1.events_count, p.2)))
      = some (some (2, 2)) := by
  have h := session_aggregator_counts "s" "t"
    sessionEvent1 sessionEvent2 sessionEvent3 _ _ _ _ _ _
    (by decide) (by decide) rfl rfl rfl rfl rfl rfl
  exact congrArg some h.1

/-- Counterexample to claim C4 as universally stated: for batch size 2 on
a system constructed from the (validator-accepted) configuration with
max events in memory 1, logging exactly 2 filter-passing events triggers
zero flushes — the bounded buffer evicts before the batch threshold is
ever reached — so the flush guarantee needs the capacity to be at least
the batch size. -/
theorem batch_size_above_capacity_counterexample :
    validate_monitoring_config
      { max_events_in_memory := 1, event_batch_size := 2 } = true ∧
    ((OptimizedMonitoringSystem.init
        { max_events_in_memory := 1, event_batch_size := 2 }).map
      (fun st0 => (([sampleEventA, sampleEventB].foldl
          OptimizedMonitoringSystem.log_event st0).exported,
        ([sampleEventA, sampleEventB].foldl
          OptimizedMonitoringSystem.log_event st0).events_buffer)))
      = Except.ok ([], [sampleEventB]) := by
  refine ⟨by decide, by rfl⟩
